import Mathlib

/-
Verification of the sensor-to-alert derivation pipeline and the report
priority scorer of the SMART-DISASTER-MANAGEMENT backend.

The JavaScript source is shallowly embedded: numeric sensor values and
multiplier arithmetic are modelled over the rationals, timestamps as
integer milliseconds, JS object lookups as association-list lookups, and
the fallible alert-creation path as an Option-valued function.
-/

namespace SDM

/-- The three classification tiers of `getAlertStatus` (Sensor model). -/
inductive ReadingStatus where
  | normal
  | warning
  | critical
deriving DecidableEq, Repr

/-- The `thresholds` subdocument of the Sensor schema. -/
structure Thresholds where
  warning : ℚ
  critical : ℚ
deriving DecidableEq, Repr

/-- `sensorSchema.methods.getAlertStatus`: classify a reading value against
the sensor thresholds, checking `critical` first, with inclusive bounds. -/
def getAlertStatus (t : Thresholds) (value : ℚ) : ReadingStatus :=
  if value ≥ t.critical then .critical
  else if value ≥ t.warning then .warning
  else .normal

/-- One entry of the `readings` array of the Sensor schema. -/
structure SensorReading where
  value : ℚ
  quality : String
  timestampMs : Int
deriving DecidableEq, Repr

/-- The buffer-management part of `sensorSchema.methods.addReading`:
push the new reading, then if more than 1000 readings are held keep only
the last 1000 (`this.readings.slice(-1000)`). -/
def addReading (readings : List SensorReading) (r : SensorReading) : List SensorReading :=
  let rs := readings ++ [r]
  if rs.length > 1000 then rs.drop (rs.length - 1000) else rs

/-- The fields of a DisasterReport that `calculatePriority` reads. -/
structure DisasterReport where
  severity : String
  type : String
  createdAtMs : Int
  affectedEstimated : Option ℚ
deriving DecidableEq, Repr

/-- The `severityMultiplier` object of `calculatePriority`, with the
`|| 1` fallback for severities outside the table. -/
def severityMultiplier (s : String) : ℚ :=
  (([("low", (1 : ℚ)/2), ("medium", 1), ("high", 3/2), ("critical", 2)]).lookup s).getD 1

/-- The `highPriorityTypes` array of `calculatePriority`. -/
def highPriorityTypes : List String :=
  ["earthquake", "fire", "building_collapse", "gas_leak"]

/-- JavaScript `Math.round`: round half toward positive infinity. -/
def jsRound (q : ℚ) : Int := ⌊q + 1/2⌋

/-- `hoursOld` of `calculatePriority`: `(Date.now() - createdAt) / (1000*60*60)`. -/
def hoursOld (r : DisasterReport) (nowMs : Int) : ℚ :=
  ((nowMs : ℚ) - (r.createdAtMs : ℚ)) / (1000 * 60 * 60)

/-- The running multiplier product of `calculatePriority`, before rounding
and clamping: base 5, severity multiplier, high-priority-type factor, then
the two sequential age conditionals, then the affected-people factor. -/
def priorityRat (r : DisasterReport) (nowMs : Int) : ℚ :=
  let p0 : ℚ := 5
  let p1 := p0 * severityMultiplier r.severity
  let p2 := if highPriorityTypes.contains r.type then p1 * (3/2) else p1
  let h := hoursOld r nowMs
  let p3 := if h > 24 then p2 * (6/5) else p2
  let p4 := if h > 48 then p3 * (3/2) else p3
  match r.affectedEstimated with
  | some e => if e > 10 then p4 * (13/10) else p4
  | none => p4

/-- `disasterReportSchema.methods.calculatePriority`:
`this.priority = Math.min(Math.round(priority), 10)`. -/
def calculatePriority (r : DisasterReport) (nowMs : Int) : Int :=
  min (jsRound (priorityRat r nowMs)) 10

/-- Modelled from the spec:
the spec (§4.3 step 4) asserts the two age tiers are mutually exclusive
("If ageHours > 48, multiply by 1.5; else if ageHours > 24, multiply by
1.2"), unlike the source which applies them in sequence. This variant
exists only to be compared against `calculatePriority`. -/
def priorityRatClaimed (r : DisasterReport) (nowMs : Int) : ℚ :=
  let p0 : ℚ := 5
  let p1 := p0 * severityMultiplier r.severity
  let p2 := if highPriorityTypes.contains r.type then p1 * (3/2) else p1
  let h := hoursOld r nowMs
  let p4 := if h > 48 then p2 * (3/2) else if h > 24 then p2 * (6/5) else p2
  match r.affectedEstimated with
  | some e => if e > 10 then p4 * (13/10) else p4
  | none => p4

/-- Modelled from the spec: rounding and clamping applied to the
exclusive-age-tier variant. -/
def calculatePriorityClaimed (r : DisasterReport) (nowMs : Int) : Int :=
  min (jsRound (priorityRatClaimed r nowMs)) 10

/-- Round half away from zero, the tie-breaking rule of JS `toFixed`
applied to the idealized (rational) value. -/
def roundHalfAway (q : ℚ) : Int :=
  if q ≥ 0 then ⌊q + 1/2⌋ else -⌊(-q) + 1/2⌋

/-- `value.toFixed(1)`: render with exactly one decimal digit. -/
def fmtFixed1 (q : ℚ) : String :=
  let n := roundHalfAway (q * 10)
  let sgn := if n < 0 then "-" else ""
  let m := n.natAbs
  sgn ++ toString (m / 10) ++ "." ++ toString (m % 10)

/-- `value.toFixed(0)`: render with no decimal digits. -/
def fmtFixed0 (q : ℚ) : String :=
  toString (roundHalfAway q)

/-- The `messages` object literal of `generateAlertMessage`. -/
def messageTemplates (value : ℚ) (unit : String) : List (String × String) :=
  [("seismic", "Seismic activity detected: " ++ fmtFixed1 value ++ " magnitude"),
   ("water_level", "Rising water levels detected: " ++ fmtFixed1 value ++ unit),
   ("wind_speed", "High wind speeds detected: " ++ fmtFixed1 value ++ " " ++ unit),
   ("temperature", "Extreme temperature detected: " ++ fmtFixed1 value ++ unit),
   ("air_quality", "Poor air quality detected: AQI " ++ fmtFixed0 value),
   ("humidity", "Unusual humidity levels: " ++ fmtFixed1 value ++ unit),
   ("pressure", "Atmospheric pressure anomaly: " ++ fmtFixed1 value ++ " " ++ unit)]

/-- `generateAlertMessage`: per-sensor-type message with the
`messages[sensorType] || default` fallback. -/
def generateAlertMessage (sensorType : String) (value : ℚ) (unit : String) : String :=
  ((messageTemplates value unit).lookup sensorType).getD
    ("Sensor anomaly detected: " ++ fmtFixed1 value ++ " " ++ unit)

/-- The `mapping` object of `getAlertType`. -/
def alertTypeMapping : List (String × String) :=
  [("seismic", "earthquake"), ("water_level", "flood"), ("wind_speed", "storm"),
   ("temperature", "heatwave"), ("air_quality", "pollution")]

/-- `getAlertType`: map a sensor type to an alert type, `|| 'other'`. -/
def getAlertType (sensorType : String) : String :=
  (alertTypeMapping.lookup sensorType).getD "other"

/-- The `baseImpact` object of `calculateImpact`: per sensor type, the
(critical, warning) impact pair. -/
def baseImpact : List (String × (Int × Int)) :=
  [("seismic", (10000, 5000)), ("water_level", (8000, 4000)),
   ("wind_speed", (6000, 3000)), ("temperature", (12000, 6000)),
   ("air_quality", (15000, 8000))]

/-- `calculateImpact`: `baseImpact[sensorType]?.[severity] || 1000`. -/
def calculateImpact (sensorType severity : String) : Int :=
  match baseImpact.lookup sensorType with
  | some p => if severity = "critical" then p.1
              else if severity = "warning" then p.2
              else 1000
  | none => 1000

/-- The sensor fields read by the alert pipeline of `simulateSensorData`. -/
structure SensorCfg where
  sensorId : String
  type : String
  unit : String
  locationName : String
  lat : ℚ
  lng : ℚ
  thresholds : Thresholds
deriving DecidableEq, Repr

/-- The alert fields consulted by the deduplication query of
`simulateSensorData`. -/
structure AlertRec where
  sensorId : String
  type : String
  severity : String
  resolved : Bool
  createdAtMs : Int
deriving DecidableEq, Repr

/-- The alert document constructed by `simulateSensorData` when no recent
matching alert exists (the random id is the caller's concern). -/
structure AlertCreationCommand where
  type : String
  message : String
  severity : String
  locationName : String
  lat : ℚ
  lng : ℚ
  estimatedImpact : Int
  value : ℚ
  unit : String
  sensorId : String
  createdAtMs : Int
deriving DecidableEq, Repr

/-- `alertStatus === 'critical' ? 'critical' : 'warning'`. -/
def severityString (s : ReadingStatus) : String :=
  if s = .critical then "critical" else "warning"

/-- The 5-minute deduplication window: `5 * 60 * 1000` milliseconds. -/
def dedupWindowMs : Int := 5 * 60 * 1000

/-- The `Alert.findOne` dedup query of `simulateSensorData`: an alert
matches when it carries the sensor id, the mapped alert type, the mapped
severity, is unresolved, and `createdAt >= now - 5 minutes`. -/
def matchesRecent (sensor : SensorCfg) (sev : String) (nowMs : Int) (a : AlertRec) : Bool :=
  a.sensorId == sensor.sensorId &&
  a.type == getAlertType sensor.type &&
  a.severity == sev &&
  !a.resolved &&
  decide (nowMs - dedupWindowMs ≤ a.createdAtMs)

/-- The per-sensor alert branch of `simulateSensorData` (lines 46-78): classify
the value; if not normal and no matching unresolved alert lies in the trailing
5-minute window, produce the alert document to be saved. -/
def processReading (sensor : SensorCfg) (value : ℚ) (alerts : List AlertRec)
    (nowMs : Int) : Option AlertCreationCommand :=
  let alertStatus := getAlertStatus sensor.thresholds value
  if alertStatus ≠ .normal then
    let sev := severityString alertStatus
    if alerts.any (matchesRecent sensor sev nowMs) then none
    else some
      { type := getAlertType sensor.type
        message := generateAlertMessage sensor.type value sensor.unit
        severity := sev
        locationName := sensor.locationName
        lat := sensor.lat
        lng := sensor.lng
        estimatedImpact := calculateImpact sensor.type sev
        value := value
        unit := sensor.unit
        sensorId := sensor.sensorId
        createdAtMs := nowMs }
  else none

/-- The alert record that saving an `AlertCreationCommand` adds to the
history (`resolved` defaults to false, `createdAt` is the save time). -/
def commandToAlert (c : AlertCreationCommand) : AlertRec :=
  { sensorId := c.sensorId
    type := c.type
    severity := c.severity
    resolved := false
    createdAtMs := c.createdAtMs }

/-- The `seismic-001` sensor of `initializeSensors`. -/
def seismic001 : SensorCfg :=
  { sensorId := "seismic-001"
    type := "seismic"
    unit := "magnitude"
    locationName := "Ghaziabad Central"
    lat := 28.6692
    lng := 77.4538
    thresholds := { warning := 3, critical := 4 } }

/-- The part of the priority product that does not depend on the
evaluation time: base 5, severity multiplier, high-priority-type factor. -/
def preAge (r : DisasterReport) : ℚ :=
  5 * severityMultiplier r.severity *
    (if highPriorityTypes.contains r.type then 3/2 else 1)

/-- The combined age contribution of the two sequential age conditionals
of `calculatePriority`: 1 up to 24 hours, 6/5 above 24 hours, and
(6/5) * (3/2) = 9/5 above 48 hours, since both conditionals fire there. -/
def ageFactor (h : ℚ) : ℚ :=
  if h > 48 then 9/5 else if h > 24 then 6/5 else 1

/-- The affected-people factor of `calculatePriority`. -/
def affectedFactor (r : DisasterReport) : ℚ :=
  match r.affectedEstimated with
  | some e => if e > 10 then 13/10 else 1
  | none => 1

/-- The alert document produced by evaluating `seismic-001` at value 5 and
time 0 against an empty alert history; used as a concrete test vehicle. -/
def cmd0 : AlertCreationCommand :=
  { type := "earthquake"
    message := generateAlertMessage "seismic" 5 "magnitude"
    severity := "critical"
    locationName := "Ghaziabad Central"
    lat := seismic001.lat
    lng := seismic001.lng
    estimatedImpact := 10000
    value := 5
    unit := "magnitude"
    sensorId := "seismic-001"
    createdAtMs := 0 }

/-! ### Helper lemmas -/

theorem severityMultiplier_ge (s : String) : 1/2 ≤ severityMultiplier s := by
  unfold severityMultiplier
  simp only [List.lookup]
  repeat' split <;> norm_num

theorem severityMultiplier_pos (s : String) : 0 < severityMultiplier s :=
  lt_of_lt_of_le (by norm_num) (severityMultiplier_ge s)

theorem preAge_ge (r : DisasterReport) : 5/2 ≤ preAge r := by
  unfold preAge
  have h := severityMultiplier_ge r.severity
  split <;> nlinarith

theorem preAge_nonneg (r : DisasterReport) : 0 ≤ preAge r :=
  le_trans (by norm_num) (preAge_ge r)

theorem affectedFactor_ge (r : DisasterReport) : 1 ≤ affectedFactor r := by
  cases hae : r.affectedEstimated with
  | none => simp [affectedFactor, hae]
  | some e =>
    simp only [affectedFactor, hae]
    split_ifs <;> norm_num

theorem affectedFactor_nonneg (r : DisasterReport) : 0 ≤ affectedFactor r :=
  le_trans (by norm_num) (affectedFactor_ge r)

theorem ageFactor_ge (h : ℚ) : 1 ≤ ageFactor h := by
  unfold ageFactor
  split_ifs <;> norm_num

theorem ageFactor_mono {h1 h2 : ℚ} (hle : h1 ≤ h2) : ageFactor h1 ≤ ageFactor h2 := by
  unfold ageFactor
  split_ifs <;> linarith

/-- The running product of `calculatePriority` factors as a time-independent
part, the age factor, and the affected-people factor. -/
theorem priorityRat_eq (r : DisasterReport) (nowMs : Int) :
    priorityRat r nowMs = preAge r * ageFactor (hoursOld r nowMs) * affectedFactor r := by
  cases hae : r.affectedEstimated with
  | none =>
    simp only [priorityRat, preAge, ageFactor, affectedFactor, hae]
    split_ifs <;> first | ring1 | (exfalso; linarith)
  | some e =>
    simp only [priorityRat, preAge, ageFactor, affectedFactor, hae]
    split_ifs <;> first | ring1 | (exfalso; linarith)

theorem priorityRat_ge (r : DisasterReport) (nowMs : Int) : 5/2 ≤ priorityRat r nowMs := by
  rw [priorityRat_eq]
  have h2 := ageFactor_ge (hoursOld r nowMs)
  have h3 := affectedFactor_ge r
  calc (5/2 : ℚ) ≤ preAge r := preAge_ge r
    _ ≤ preAge r * ageFactor (hoursOld r nowMs) :=
        le_mul_of_one_le_right (preAge_nonneg r) h2
    _ ≤ preAge r * ageFactor (hoursOld r nowMs) * affectedFactor r :=
        le_mul_of_one_le_right
          (mul_nonneg (preAge_nonneg r) (le_trans zero_le_one h2)) h3

theorem calculatePriority_ge_three (r : DisasterReport) (nowMs : Int) :
    3 ≤ calculatePriority r nowMs := by
  unfold calculatePriority jsRound
  refine le_min (Int.le_floor.mpr ?_) (by norm_num)
  have := priorityRat_ge r nowMs
  push_cast
  linarith

/-! ### Claim theorems -/

/-- C3: the classifier checks `value >= thresholds.critical` first, then
`value >= thresholds.warning`, else returns normal; both comparisons are
inclusive, so a value equal to `thresholds.critical` classifies as critical
and a value equal to `thresholds.warning` classifies as warning. -/
theorem getAlertStatus_spec :
    (∀ (t : Thresholds) (v : ℚ), t.critical ≤ v → getAlertStatus t v = .critical) ∧
    (∀ (t : Thresholds) (v : ℚ), v < t.critical → t.warning ≤ v →
      getAlertStatus t v = .warning) ∧
    (∀ (t : Thresholds) (v : ℚ), v < t.critical → v < t.warning →
      getAlertStatus t v = .normal) ∧
    (∀ t : Thresholds, getAlertStatus t t.critical = .critical) ∧
    (∀ t : Thresholds, t.warning < t.critical → getAlertStatus t t.warning = .warning) := by
  refine ⟨?_, ?_, ?_, ?_, ?_⟩
  · intro t v h
    unfold getAlertStatus
    rw [if_pos h]
  · intro t v h1 h2
    unfold getAlertStatus
    rw [if_neg (not_le.mpr h1), if_pos h2]
  · intro t v h1 h2
    unfold getAlertStatus
    rw [if_neg (not_le.mpr h1), if_neg (not_le.mpr h2)]
  · intro t
    unfold getAlertStatus
    rw [if_pos le_rfl]
  · intro t h
    unfold getAlertStatus
    rw [if_neg (not_le.mpr h), if_pos le_rfl]

/-- C3 witness: with thresholds {warning 3, critical 4}, value 4 is
critical, value 3 is warning, value 2 is normal. -/
theorem getAlertStatus_spec_witness :
    getAlertStatus ⟨3, 4⟩ 4 = .critical ∧ getAlertStatus ⟨3, 4⟩ 3 = .warning ∧
    getAlertStatus ⟨3, 4⟩ 2 = .normal :=
  ⟨getAlertStatus_spec.1 ⟨3, 4⟩ 4 (by norm_num),
   getAlertStatus_spec.2.1 ⟨3, 4⟩ 3 (by norm_num) (by norm_num),
   getAlertStatus_spec.2.2.1 ⟨3, 4⟩ 2 (by norm_num) (by norm_num)⟩

/-- C9: after `addReading` the buffer holds at most 1000 readings, and it
is exactly the most recent suffix of the appended list: the first
`length + 1 - 1000` (truncated at 0) oldest readings are evicted and the
new reading is kept at the end. -/
theorem addReading_bounded (readings : List SensorReading) (r : SensorReading) :
    (addReading readings r).length ≤ 1000 ∧
    addReading readings r = readings.drop (readings.length + 1 - 1000) ++ [r] := by
  unfold addReading
  have hlen : (readings ++ [r]).length = readings.length + 1 := by
    simp
  by_cases h : (readings ++ [r]).length > 1000
  · rw [if_pos h]
    constructor
    · rw [List.length_drop]
      omega
    · rw [hlen, List.drop_append_of_le_length (by omega)]
  · rw [if_neg h]
    constructor
    · omega
    · have h0 : readings.length + 1 - 1000 = 0 := by omega
      rw [h0, List.drop_zero]

/-- C8: a reading classified as normal never produces an alert-creation
command, whatever the alert history holds. -/
theorem processReading_normal_none (sensor : SensorCfg) (v : ℚ)
    (alerts : List AlertRec) (nowMs : Int)
    (h : getAlertStatus sensor.thresholds v = .normal) :
    processReading sensor v alerts nowMs = none := by
  simp [processReading, h]

/-- C8 witness: value 2 against the seismic-001 thresholds is normal and
produces nothing even with a matching unresolved alert in the window. -/
theorem processReading_normal_none_witness :
    processReading seismic001 2
      [{ sensorId := "seismic-001", type := "earthquake", severity := "critical",
         resolved := false, createdAtMs := 0 }] 1000 = none :=
  processReading_normal_none seismic001 2 _ 1000 (by decide)

/-- C7: the estimated impact follows the per-type, per-severity table,
falls back to 1000 for sensor types outside the table, and the seismic
example (thresholds {3, 4}, value 4) yields an earthquake alert of
critical severity with estimated impact 10000. -/
theorem calculateImpact_spec :
    (calculateImpact "seismic" "critical" = 10000 ∧
     calculateImpact "seismic" "warning" = 5000 ∧
     calculateImpact "water_level" "critical" = 8000 ∧
     calculateImpact "water_level" "warning" = 4000 ∧
     calculateImpact "wind_speed" "critical" = 6000 ∧
     calculateImpact "wind_speed" "warning" = 3000 ∧
     calculateImpact "temperature" "critical" = 12000 ∧
     calculateImpact "temperature" "warning" = 6000 ∧
     calculateImpact "air_quality" "critical" = 15000 ∧
     calculateImpact "air_quality" "warning" = 8000) ∧
    (∀ t : String,
      t ∉ ["seismic", "water_level", "wind_speed", "temperature", "air_quality"] →
      ∀ sev : String, calculateImpact t sev = 1000) ∧
    (processReading seismic001 4 [] 0).map (fun c => (c.type, c.severity, c.estimatedImpact)) =
      some ("earthquake", "critical", 10000) := by
  refine ⟨⟨rfl, rfl, rfl, rfl, rfl, rfl, rfl, rfl, rfl, rfl⟩, ?_, rfl⟩
  intro t ht sev
  simp only [List.mem_cons, List.not_mem_nil, or_false, not_or] at ht
  obtain ⟨n1, n2, n3, n4, n5⟩ := ht
  have e1 : (t == "seismic") = false := beq_eq_false_iff_ne.mpr n1
  have e2 : (t == "water_level") = false := beq_eq_false_iff_ne.mpr n2
  have e3 : (t == "wind_speed") = false := beq_eq_false_iff_ne.mpr n3
  have e4 : (t == "temperature") = false := beq_eq_false_iff_ne.mpr n4
  have e5 : (t == "air_quality") = false := beq_eq_false_iff_ne.mpr n5
  unfold calculateImpact baseImpact
  simp only [List.lookup, e1, e2, e3, e4, e5]

/-- C7 witness: a sensor type outside the impact table ("humidity") gets
the default impact 1000 for both produced severities. -/
theorem calculateImpact_spec_witness :
    calculateImpact "humidity" "critical" = 1000 ∧
    calculateImpact "humidity" "warning" = 1000 :=
  ⟨calculateImpact_spec.2.1 "humidity" (by decide) "critical",
   calculateImpact_spec.2.1 "humidity" (by decide) "warning"⟩

/-- C6 counterexample: the source has a dedicated humidity template, so the
claim that humidity falls through to the default template is false at
value 50, unit "%". -/
theorem generateAlertMessage_humidity_counterexample :
    generateAlertMessage "humidity" 50 "%" = "Unusual humidity levels: 50.0%" ∧
    generateAlertMessage "humidity" 50 "%" ≠ "Sensor anomaly detected: 50.0 %" := by
  have h : roundHalfAway ((50 : ℚ) * 10) = 500 := by norm_num [roundHalfAway]
  have he : generateAlertMessage "humidity" 50 "%" = "Unusual humidity levels: 50.0%" := by
    simp [generateAlertMessage, messageTemplates, fmtFixed1, h, List.lookup]
    decide
  refine ⟨he, ?_⟩
  rw [he]
  decide

/-- C6 amended: the message is templated per sensor type for seismic,
water_level, wind_speed, temperature, air_quality, and also for humidity
and pressure, which have their own templates; only sensor types outside
these seven fall through to the default "Sensor anomaly detected" form. -/
theorem generateAlertMessage_spec :
    (∀ (value : ℚ) (u : String), generateAlertMessage "seismic" value u =
      "Seismic activity detected: " ++ fmtFixed1 value ++ " magnitude") ∧
    (∀ (value : ℚ) (u : String), generateAlertMessage "water_level" value u =
      "Rising water levels detected: " ++ fmtFixed1 value ++ u) ∧
    (∀ (value : ℚ) (u : String), generateAlertMessage "wind_speed" value u =
      "High wind speeds detected: " ++ fmtFixed1 value ++ " " ++ u) ∧
    (∀ (value : ℚ) (u : String), generateAlertMessage "temperature" value u =
      "Extreme temperature detected: " ++ fmtFixed1 value ++ u) ∧
    (∀ (value : ℚ) (u : String), generateAlertMessage "air_quality" value u =
      "Poor air quality detected: AQI " ++ fmtFixed0 value) ∧
    (∀ (value : ℚ) (u : String), generateAlertMessage "humidity" value u =
      "Unusual humidity levels: " ++ fmtFixed1 value ++ u) ∧
    (∀ (value : ℚ) (u : String), generateAlertMessage "pressure" value u =
      "Atmospheric pressure anomaly: " ++ fmtFixed1 value ++ " " ++ u) ∧
    (∀ t : String,
      t ∉ ["seismic", "water_level", "wind_speed", "temperature", "air_quality",
           "humidity", "pressure"] →
      ∀ (value : ℚ) (u : String), generateAlertMessage t value u =
        "Sensor anomaly detected: " ++ fmtFixed1 value ++ " " ++ u) := by
  refine ⟨fun v u => rfl, fun v u => rfl, fun v u => rfl, fun v u => rfl,
    fun v u => rfl, fun v u => rfl, fun v u => rfl, ?_⟩
  intro t ht value u
  simp only [List.mem_cons, List.not_mem_nil, or_false, not_or] at ht
  obtain ⟨n1, n2, n3, n4, n5, n6, n7⟩ := ht
  have e1 : (t == "seismic") = false := beq_eq_false_iff_ne.mpr n1
  have e2 : (t == "water_level") = false := beq_eq_false_iff_ne.mpr n2
  have e3 : (t == "wind_speed") = false := beq_eq_false_iff_ne.mpr n3
  have e4 : (t == "temperature") = false := beq_eq_false_iff_ne.mpr n4
  have e5 : (t == "air_quality") = false := beq_eq_false_iff_ne.mpr n5
  have e6 : (t == "humidity") = false := beq_eq_false_iff_ne.mpr n6
  have e7 : (t == "pressure") = false := beq_eq_false_iff_ne.mpr n7
  unfold generateAlertMessage messageTemplates
  simp only [List.lookup, e1, e2, e3, e4, e5, e6, e7, Option.getD_none]

/-- C6 amended witness: the "weather" sensor type is outside the template
table and yields the default message. -/
theorem generateAlertMessage_spec_witness :
    generateAlertMessage "weather" 50 "AQI" =
      "Sensor anomaly detected: " ++ fmtFixed1 50 ++ " " ++ "AQI" :=
  generateAlertMessage_spec.2.2.2.2.2.2.2 "weather" (by decide) 50 "AQI"

/-- C1 counterexample: a medium-severity, non-high-priority report aged 49
hours scores round(5 * 1.2 * 1.5) = 9 because both age multipliers fire,
whereas the exclusive-tier rule of the claim would give
round(5 * 1.5) = 8. -/
theorem calculatePriority_age_counterexample :
    calculatePriority ⟨"medium", "other", 0, none⟩ 176400000 = 9 ∧
    calculatePriorityClaimed ⟨"medium", "other", 0, none⟩ 176400000 = 8 := by
  have h2 : severityMultiplier "medium" = 1 := by decide
  have h1 : highPriorityTypes.contains "other" = false := by decide
  constructor
  · rw [calculatePriority, priorityRat]
    rw [h2, h1]
    norm_num [hoursOld, jsRound]
  · rw [calculatePriorityClaimed, priorityRatClaimed]
    rw [h2, h1]
    norm_num [hoursOld, jsRound]

/-- C1 amended: the two age conditionals run in sequence, so above 48
hours of age both the 1.2 and the 1.5 multipliers apply (combined factor
9/5); strictly between 24 and 48 hours (inclusive above) only 1.2
applies; at or below 24 hours neither applies. -/
theorem calculatePriority_age_tiers (r : DisasterReport) (nowMs : Int) :
    (48 < hoursOld r nowMs →
      priorityRat r nowMs = preAge r * ((6/5) * (3/2)) * affectedFactor r) ∧
    (24 < hoursOld r nowMs → hoursOld r nowMs ≤ 48 →
      priorityRat r nowMs = preAge r * (6/5) * affectedFactor r) ∧
    (hoursOld r nowMs ≤ 24 →
      priorityRat r nowMs = preAge r * affectedFactor r) := by
  refine ⟨?_, ?_, ?_⟩
  · intro h48
    rw [priorityRat_eq]
    unfold ageFactor
    rw [if_pos h48]
    ring
  · intro h24 h48
    rw [priorityRat_eq]
    unfold ageFactor
    rw [if_neg (by linarith), if_pos h24]
  · intro h24
    rw [priorityRat_eq]
    unfold ageFactor
    rw [if_neg (by linarith), if_neg (by linarith)]
    ring

/-- C1 amended witness: the 49-hour-old report hits the combined 9/5
factor branch. -/
theorem calculatePriority_age_tiers_witness :
    priorityRat ⟨"medium", "other", 0, none⟩ 176400000 =
      preAge ⟨"medium", "other", 0, none⟩ * ((6/5) * (3/2)) *
        affectedFactor ⟨"medium", "other", 0, none⟩ :=
  (calculatePriority_age_tiers ⟨"medium", "other", 0, none⟩ 176400000).1
    (by norm_num [hoursOld])

/-- C4: for every report (any severity string, any type, any creation
time, any affected-people estimate) and every evaluation time, the
computed priority is an integer in the closed interval [1, 10]. -/
theorem calculatePriority_in_range (r : DisasterReport) (nowMs : Int) :
    1 ≤ calculatePriority r nowMs ∧ calculatePriority r nowMs ≤ 10 :=
  ⟨le_trans (by norm_num) (calculatePriority_ge_three r nowMs), min_le_right _ _⟩

/-- C10: every computed priority is at least 3, the bound is attained
(severity low, no other factor), and the minimal multiplier product is
exactly 5 * (1/2) = 5/2, which rounds to 3 — so the missing lower clamp
never matters. -/
theorem calculatePriority_min_three :
    (∀ (r : DisasterReport) (nowMs : Int), 3 ≤ calculatePriority r nowMs) ∧
    priorityRat ⟨"low", "other", 0, none⟩ 0 = 5/2 ∧
    calculatePriority ⟨"low", "other", 0, none⟩ 0 = 3 := by
  have h2 : severityMultiplier "low" = 1/2 := by
    norm_num [severityMultiplier, List.lookup]
  have h1 : highPriorityTypes.contains "other" = false := by decide
  refine ⟨calculatePriority_ge_three, ?_, ?_⟩
  · rw [priorityRat]
    rw [h2, h1]
    norm_num [hoursOld]
  · rw [calculatePriority, priorityRat]
    rw [h2, h1]
    norm_num [hoursOld, jsRound]

/-- C5: the priority score is monotone in the evaluation time: evaluating
the same report later can only raise or hold the score. -/
theorem calculatePriority_monotone (r : DisasterReport) (t1 t2 : Int) (h : t1 ≤ t2) :
    calculatePriority r t1 ≤ calculatePriority r t2 := by
  have hh : hoursOld r t1 ≤ hoursOld r t2 := by
    unfold hoursOld
    have hc : ((t1 : ℚ)) ≤ (t2 : ℚ) := by exact_mod_cast h
    linarith
  have hmono : priorityRat r t1 ≤ priorityRat r t2 := by
    rw [priorityRat_eq, priorityRat_eq]
    apply mul_le_mul_of_nonneg_right _ (affectedFactor_nonneg r)
    exact mul_le_mul_of_nonneg_left (ageFactor_mono hh) (preAge_nonneg r)
  unfold calculatePriority jsRound
  exact min_le_min (Int.floor_le_floor (by linarith)) le_rfl

/-- C2: deduplication of the alert pipeline. If a first evaluation
produced an alert and a second evaluation of the same
(sensorId, mapped type, mapped severity) triple happens while that alert,
still unresolved, was created within the trailing 5-minute window, the
second evaluation produces nothing; if the evaluations are more than 5
minutes apart and no other unresolved matching alert lies in the window,
the second evaluation produces an alert as well. -/
theorem processReading_dedup (sensor : SensorCfg) (v1 v2 : ℚ) (alerts : List AlertRec)
    (t1 t2 : Int) (c1 : AlertCreationCommand)
    (h1 : processReading sensor v1 alerts t1 = some c1)
    (hsame : getAlertStatus sensor.thresholds v2 = getAlertStatus sensor.thresholds v1) :
    (t2 - t1 ≤ dedupWindowMs →
      processReading sensor v2 (commandToAlert c1 :: alerts) t2 = none) ∧
    (dedupWindowMs < t2 - t1 →
      (∀ a ∈ alerts,
        matchesRecent sensor (severityString (getAlertStatus sensor.thresholds v1)) t2 a
          = false) →
      ∃ c2, processReading sensor v2 (commandToAlert c1 :: alerts) t2 = some c2) := by
  by_cases hstat : getAlertStatus sensor.thresholds v1 = ReadingStatus.normal
  · simp [processReading, hstat] at h1
  by_cases hany : alerts.any
      (matchesRecent sensor (severityString (getAlertStatus sensor.thresholds v1)) t1) = true
  · simp [processReading, hstat, hany] at h1
  simp only [processReading, ne_eq, hstat, not_false_eq_true, if_true, ite_true,
    hany, Bool.false_eq_true, if_false, ite_false] at h1
  rw [Option.some.injEq] at h1
  subst h1
  constructor
  · intro hle
    have hrec : matchesRecent sensor
        (severityString (getAlertStatus sensor.thresholds v1)) t2
        (commandToAlert
          { type := getAlertType sensor.type
            message := generateAlertMessage sensor.type v1 sensor.unit
            severity := severityString (getAlertStatus sensor.thresholds v1)
            locationName := sensor.locationName
            lat := sensor.lat
            lng := sensor.lng
            estimatedImpact :=
              calculateImpact sensor.type (severityString (getAlertStatus sensor.thresholds v1))
            value := v1
            unit := sensor.unit
            sensorId := sensor.sensorId
            createdAtMs := t1 }) = true := by
      simp only [matchesRecent, commandToAlert, beq_self_eq_true, Bool.true_and,
        Bool.not_false, Bool.and_true]
      exact decide_eq_true (by linarith)
    simp only [processReading, ne_eq, hsame, hstat, not_false_eq_true, if_true, ite_true,
      List.any_cons, hrec, Bool.true_or, ite_true, if_true]
  · intro hgt hall
    have hrec : matchesRecent sensor
        (severityString (getAlertStatus sensor.thresholds v1)) t2
        (commandToAlert
          { type := getAlertType sensor.type
            message := generateAlertMessage sensor.type v1 sensor.unit
            severity := severityString (getAlertStatus sensor.thresholds v1)
            locationName := sensor.locationName
            lat := sensor.lat
            lng := sensor.lng
            estimatedImpact :=
              calculateImpact sensor.type (severityString (getAlertStatus sensor.thresholds v1))
            value := v1
            unit := sensor.unit
            sensorId := sensor.sensorId
            createdAtMs := t1 }) = false := by
      simp only [matchesRecent, commandToAlert, beq_self_eq_true, Bool.true_and,
        Bool.not_false, Bool.and_true]
      rw [decide_eq_false (by linarith)]
    have hanyall : (commandToAlert
          { type := getAlertType sensor.type
            message := generateAlertMessage sensor.type v1 sensor.unit
            severity := severityString (getAlertStatus sensor.thresholds v1)
            locationName := sensor.locationName
            lat := sensor.lat
            lng := sensor.lng
            estimatedImpact :=
              calculateImpact sensor.type (severityString (getAlertStatus sensor.thresholds v1))
            value := v1
            unit := sensor.unit
            sensorId := sensor.sensorId
            createdAtMs := t1 } :: alerts).any
        (matchesRecent sensor (severityString (getAlertStatus sensor.thresholds v1)) t2)
          = false := by
      rw [List.any_cons, hrec]
      simp only [Bool.false_or, List.any_eq_false]
      intro a ha
      simp [hall a ha]
    refine ⟨{ type := getAlertType sensor.type
              message := generateAlertMessage sensor.type v2 sensor.unit
              severity := severityString (getAlertStatus sensor.thresholds v1)
              locationName := sensor.locationName
              lat := sensor.lat
              lng := sensor.lng
              estimatedImpact :=
                calculateImpact sensor.type (severityString (getAlertStatus sensor.thresholds v1))
              value := v2
              unit := sensor.unit
              sensorId := sensor.sensorId
              createdAtMs := t2 }, ?_⟩
    simp only [processReading, ne_eq, hsame, hstat, not_false_eq_true, if_true, ite_true,
      hanyall, Bool.false_eq_true, if_false, ite_false]

/-- C2 witness: with seismic-001 at value 5 (critical), the alert created
at time 0 suppresses a second evaluation at 200000 ms (within 5 minutes),
while a second evaluation at 400000 ms (more than 5 minutes later, no
other alert in the window) produces an alert again. -/
theorem processReading_dedup_witness :
    processReading seismic001 5 (commandToAlert cmd0 :: []) 200000 = none ∧
    ∃ c2, processReading seismic001 5 (commandToAlert cmd0 :: []) 400000 = some c2 :=
  ⟨(processReading_dedup seismic001 5 5 [] 0 200000 cmd0 rfl rfl).1 (by decide),
   (processReading_dedup seismic001 5 5 [] 0 400000 cmd0 rfl rfl).2 (by decide)
     (by intro a ha; cases ha)⟩

/-- C5 witness: the demo report scores no higher at time 0 than 49 hours
later. -/
theorem calculatePriority_monotone_witness :
    calculatePriority ⟨"medium", "other", 0, none⟩ 0 ≤
      calculatePriority ⟨"medium", "other", 0, none⟩ 176400000 :=
  calculatePriority_monotone ⟨"medium", "other", 0, none⟩ 0 176400000 (by norm_num)

end SDM
